import Mathlib

/-!
Verification of the tart-telescope/catalogue repository: a shallow
embedding, in Lean 4, of the catalogue cache, the ephemerides query
surface and the HTTP handler logic, together with theorems settling the
specification claims.

Conventions of the embedding:
* Python floats are modelled as rationals (`ℚ`); machine rounding is not
  modelled, but the explicit decimal rounding performed by the code
  (`np.round(..., decimals=n)`) is.
* Timestamps handled by the Flask/FastAPI layer are modelled as rational
  POSIX seconds (`Utc`); astropy two-part Julian dates used by
  `app_skyfield/skyfield_catalog.py` are modelled as a pair of rationals.
* External capabilities the spec excludes (orbital propagation,
  ECI→ECEF and ECEF→horizontal conversions, `dateutil` date parsing,
  `float()` string parsing, `isoformat`) are fields of an `Externals` record,
  universally quantified in the theorems.
* Python exception propagation is modelled with `Except String`;
  `exBind` is sequential composition that re-raises the first error,
  exactly as an uncaught Python exception aborts the handler body.
-/

/-- POSIX timestamp in seconds, as handled by `tart.util.utc`. -/
abbrev Utc : Type := ℚ

/-- A 3-vector of rationals (positions and velocities). -/
abbrev Vec3 : Type := ℚ × ℚ × ℚ

/-- Componentwise scaling, modelling `[v[0]*1000.0, v[1]*1000.0, v[2]*1000.0]`. -/
def smul3 (c : ℚ) (v : Vec3) : Vec3 := (c * v.1, c * v.2.1, c * v.2.2)

/-- The `tart.util.angle` Angle type: it carries a value in degrees. -/
structure Angle where
  degrees : ℚ
deriving DecidableEq

/-- Angle.from_dms with a single argument (as called by the handlers)
returns the angle whose degree value is that argument. -/
def angle.from_dms (x : ℚ) : Angle := ⟨x⟩

/-- Angle.to_degrees returns the degree value of the angle. -/
def Angle.to_degrees (a : Angle) : ℚ := a.degrees

/-- tart.imaging.location.Location(lat, lon, alt): observer location. -/
structure Location where
  lat : Angle
  lon : Angle
  alt : ℚ
deriving DecidableEq

/-- One element of the array returned by the /position endpoint
(`Sp4Ephemerides.get_positions` builds these dicts). -/
structure PosRecord where
  name : String
  ecef : Vec3
  ecef_dot : Vec3
  jy : ℚ
deriving DecidableEq

/-- One element of the array returned by the /catalog endpoint
(`Sp4Ephemerides.get_az_el` builds these dicts). -/
structure AzElRecord where
  name : String
  r : ℚ
  el : ℚ
  az : ℚ
  jy : ℚ
deriving DecidableEq

/-- External capabilities excluded from the spec's scope (propagation
math, coordinate conversions, date parsing, float parsing, formatting),
kept abstract and quantified over in every theorem. -/
structure Externals where
  eciToEcef : Utc → Vec3 → Vec3
  ecefToHorizontal : Location → Vec3 → ℚ × Angle × Angle
  pyFloat : String → Option ℚ
  parseDate : String → Option Utc
  isoformat : Utc → String

/-- np.round(x, decimals=6). Mathlib `round` is round-half-up while
numpy uses round-half-even; no claim here touches a tie, so the
difference is immaterial to every theorem below. -/
def round6 (x : ℚ) : ℚ := (round (x * 1000000) : ℤ) / 1000000

/-- np.round(x, decimals=1), used for the range field `r`. -/
def round1 (x : ℚ) : ℚ := (round (x * 10) : ℤ) / 10

/-- Sp4Ephemeris (norad_cache.py): one named satellite with its
propagator `sv.propagate(y, m, d, h, min, s)`, which is external math;
the embedding keeps it as a function of the full timestamp. -/
structure Sp4Ephemeris where
  name : String
  propagate : Utc → Vec3 × Vec3

/-- Sp4Ephemeris.get_position: propagate, scale km to m, convert the
position from ECI to ECEF (norad_cache.py lines 25-31). -/
def Sp4Ephemeris.get_position (sv : Sp4Ephemeris) (ext : Externals) (date : Utc) :
    Vec3 × Vec3 :=
  let pv := sv.propagate date
  (ext.eciToEcef date (smul3 1000 pv.1), smul3 1000 pv.2)

/-- Sp4Ephemeris.get_az_el: position, then `loc.ecef_to_horizontal`
returning (range, elevation angle, azimuth angle)
(norad_cache.py lines 33-35). -/
def Sp4Ephemeris.get_az_el (sv : Sp4Ephemeris) (ext : Externals) (date : Utc)
    (loc : Location) : ℚ × Angle × Angle :=
  ext.ecefToHorizontal loc (sv.get_position ext date).1

/-- Sp4Ephemerides (norad_cache.py lines 38-87): a parsed catalogue, an
ordered list of satellites plus the kind's fixed jansky tag. -/
structure Sp4Ephemerides where
  jansky : ℚ
  satellites : List Sp4Ephemeris

/-- Sp4Ephemerides.get_positions (norad_cache.py lines 67-73): one
PosRecord per satellite, in catalogue order. -/
def Sp4Ephemerides.get_positions (e : Sp4Ephemerides) (ext : Externals)
    (date : Utc) : List PosRecord :=
  e.satellites.map (fun sv =>
    let pv := sv.get_position ext date
    ⟨sv.name, pv.1, pv.2, e.jansky⟩)

/-- Sp4Ephemerides.get_az_el (norad_cache.py lines 75-87): for each
satellite compute (r, el, az), round el and az to 6 decimals and r to 1
decimal, keep the record exactly when `el >= elevation`. -/
def Sp4Ephemerides.get_az_el (e : Sp4Ephemerides) (ext : Externals) (date : Utc)
    (lat lon : Angle) (alt elevation : ℚ) : List AzElRecord :=
  let loc : Location := ⟨lat, lon, alt⟩
  e.satellites.filterMap (fun sv =>
    let rea := sv.get_az_el ext date loc
    let el := round6 rea.2.1.degrees
    let az := round6 rea.2.2.degrees
    let r := round1 rea.1
    if elevation ≤ el then some ⟨sv.name, r, el, az, e.jansky⟩ else none)

/-!
Exception plumbing shared by the cache layer and the HTTP handlers.
-/

/-- Sequential composition under Python exception semantics: the first
raised exception aborts the rest of the body. -/
def exBind {α β : Type} (x : Except String α) (f : α → Except String β) :
    Except String β :=
  match x with
  | .error e => .error e
  | .ok a => f a

@[simp] theorem exBind_ok {α β : Type} (a : α) (f : α → Except String β) :
    exBind (.ok a) f = f a := rfl

@[simp] theorem exBind_error {α β : Type} (e : String) (f : α → Except String β) :
    exBind (.error e) f = .error e := rfl

/-- Lift an optional value to Except: `none` raises with the given
message (modelling a raising Python call such as `float(s)`). -/
def ofOption {α : Type} (o : Option α) (msg : String) : Except String α :=
  match o with
  | some a => .ok a
  | none => .error msg

/-- Left-to-right effectful map (a Python list comprehension whose body
may raise): the first exception aborts the whole comprehension. -/
def listMapE {α β : Type} (f : α → Except String β) : List α → Except String (List β)
  | [] => .ok []
  | a :: as =>
      exBind (f a) (fun b =>
      exBind (listMapE f as) (fun bs =>
      .ok (b :: bs)))

theorem listMapE_ok_length {α β : Type} (f : α → Except String β) :
    ∀ (l : List α) (bs : List β), listMapE f l = .ok bs → bs.length = l.length := by
  intro l
  induction l with
  | nil =>
      intro bs h
      simp only [listMapE] at h
      cases h
      rfl
  | cons a as ih =>
      intro bs h
      simp only [listMapE] at h
      cases hfa : f a with
      | error e => rw [hfa] at h; simp at h
      | ok b =>
          rw [hfa] at h
          cases hrest : listMapE f as with
          | error e => rw [hrest] at h; simp at h
          | ok bs0 =>
              rw [hrest] at h
              simp only [exBind_ok] at h
              cases h
              simp [ih bs0 hrest]

theorem listMapE_ok_get {α β : Type} (f : α → Except String β) :
    ∀ (l : List α) (bs : List β), listMapE f l = .ok bs →
      ∀ (i : ℕ) (h1 : i < l.length) (h2 : i < bs.length),
        f (l.get ⟨i, h1⟩) = .ok (bs.get ⟨i, h2⟩) := by
  intro l
  induction l with
  | nil => intro bs h i h1; exact absurd h1 (by simp)
  | cons a as ih =>
      intro bs h i h1 h2
      simp only [listMapE] at h
      cases hfa : f a with
      | error e => rw [hfa] at h; simp at h
      | ok b =>
          rw [hfa] at h
          cases hrest : listMapE f as with
          | error e => rw [hrest] at h; simp at h
          | ok bs0 =>
              rw [hrest] at h
              simp only [exBind_ok] at h
              cases h
              cases i with
              | zero => simpa using hfa
              | succ j =>
                  have hj : j < as.length := Nat.lt_of_succ_lt_succ h1
                  have hj2 : j < bs0.length := Nat.lt_of_succ_lt_succ h2
                  simpa using ih bs0 hrest j hj hj2

/-!
app_skyfield/skyfield_catalog.py: the cache-key derivation
(`get_cache_dir` / `get_cache_file`) and the download decision in
`get_catalog`.
-/

/-- An astropy two-part Julian date `t`, as used by
`skyfield_catalog.py` (the observation time is an `astropy.time.Time`
whose Julian date is `jd1 + jd2`). -/
structure TwoPartJD where
  jd1 : ℚ
  jd2 : ℚ
deriving DecidableEq

/-- Python `int(x)`: truncation toward zero. -/
def pyInt (x : ℚ) : ℤ := if 0 ≤ x then ⌊x⌋ else -⌊-x⌋

/-- Python `f"{x:02f}"` formats with six decimal places; two rationals
produce the same formatted text exactly when they round to the same
multiple of 10⁻⁶ (ties do not occur in any input considered here). -/
def fmt6 (x : ℚ) : ℤ := round (x * 1000000)

/-- The identifying content of the cache path built by
`get_cache_dir`/`get_cache_file` (skyfield_catalog.py lines 18-32):
directory components `int(t.jd1)` and `int(t.jd2*100)`, file name
`f"{t.jd2:02f}_{group}.csv"`. Two timestamps share the local cache
file exactly when these four components coincide. -/
structure SkyCacheKey where
  dirDay : ℤ
  dirSub : ℤ
  fnameFrac : ℤ
  group : String
deriving DecidableEq

/-- get_cache_file (skyfield_catalog.py lines 27-32, with
get_cache_dir lines 18-24): the cache key derived from the group name
and the observation time. -/
def get_cache_file (group : String) (t : TwoPartJD) : SkyCacheKey :=
  ⟨pyInt t.jd1, pyInt (t.jd2 * 100), fmt6 t.jd2, group⟩

/-- Two Julian-date timestamps fall on the same calendar day exactly
when their Julian dates lie in the same noon-to-noon-shifted unit
interval, i.e. `⌊jd + 1/2⌋` coincides. -/
def sameCalendarDay (a b : TwoPartJD) : Prop :=
  ⌊a.jd1 + a.jd2 + 1/2⌋ = ⌊b.jd1 + b.jd2 + 1/2⌋

instance (a b : TwoPartJD) : Decidable (sameCalendarDay a b) :=
  inferInstanceAs (Decidable (_ = _))

/-- max_days (skyfield_catalog.py line 15): download again once 1 day old. -/
def max_days : ℚ := 1

/-- The observable filesystem state `get_catalog` consults for one
cache file: whether `load.exists(catalog_fname)` holds and what
`load.days_old(catalog_fname)` returns. -/
structure LoadState where
  present : Bool
  daysOld : ℚ
deriving DecidableEq

/-- The download decision of get_catalog (skyfield_catalog.py line 50):
`not load.exists(f) or load.days_old(f) >= max_days`. -/
def downloadNeeded (st : LoadState) : Bool :=
  (!st.present) || decide (max_days ≤ st.daysOld)

/-- Outcome of a `load.download` call (network fetch). -/
inductive FetchOutcome
  | ok
  | fail
deriving DecidableEq

/-- Which file content ends up being parsed by the query. -/
inductive FileVersion
  | cached
  | fresh
deriving DecidableEq

/-- The fetch phase of get_catalog (skyfield_catalog.py lines 50-53):
if a download is needed it is attempted, and a failing download raises
out of `get_catalog` — there is no fallback to an existing stale file;
otherwise the existing file is reused unchanged. -/
def skyfield_fetch (st : LoadState) (fetch : FetchOutcome) :
    Except String FileVersion :=
  if downloadNeeded st then
    match fetch with
    | .ok => .ok .fresh
    | .fail => .error "download failed"
  else .ok .cached

/-!
file_cache.FileCache is imported by app/norad_cache.py but the module
itself is not part of src/; its daily key layout and its
fetch-with-fallback behaviour are modelled from the spec (and from the
EphemerisFileCache docstring in norad_cache.py lines 90-101).
-/

/-- A calendar timestamp as consumed by the daily file cache. -/
structure CalDate where
  year : ℤ
  month : ℤ
  day : ℤ
  hour : ℤ
  minute : ℤ
  second : ℚ
deriving DecidableEq

/-- Two calendar timestamps fall on the same calendar day when their
year, month and day components coincide. -/
def sameCalendarDate (a b : CalDate) : Prop :=
  a.year = b.year ∧ a.month = b.month ∧ a.day = b.day

instance (a b : CalDate) : Decidable (sameCalendarDate a b) :=
  inferInstanceAs (Decidable (_ ∧ _ ∧ _))

/-- The identifying content of a daily cache file path
`name - YYYY - MM - DD.dat`. -/
structure DailyPath where
  name : String
  year : ℤ
  month : ℤ
  day : ℤ
deriving DecidableEq

/-- Modelled from the spec: `file_cache.FileCache` locates the cache
file for a date (file_cache.py is absent from src/; the
EphemerisFileCache docstring in norad_cache.py lines 95-100 gives the
layout `name - YYYY - MM - DD.dat`, one file per day). The path depends
only on the kind name and the calendar day of the date. -/
def fileCachePath (name : String) (d : CalDate) : DailyPath :=
  ⟨name, d.year, d.month, d.day⟩

/-- Modelled from the spec: `file_cache.FileCache.get_object` resolves
a date to the parsed object for that date's cache file (spec §4.3: key
from date; download or reuse; parse). With a fixed parse function the
result is a function of the path alone. -/
def fileCache_object (name : String) (parse : DailyPath → Sp4Ephemerides)
    (d : CalDate) : Sp4Ephemerides :=
  parse (fileCachePath name d)

/-- Modelled from the spec: the fetch phase of
`file_cache.FileCache.get_object` (spec §4.2/§4.3; file_cache.py is
absent from src/). A fresh-enough file is reused; otherwise a download
is attempted, and on fetch failure the existing file, if any, is served
stale, else the error is fatal. -/
def fileCache_fetch (st : LoadState) (fetch : FetchOutcome) :
    Except String FileVersion :=
  if downloadNeeded st then
    match fetch with
    | .ok => .ok .fresh
    | .fail => if st.present then .ok .cached else .error "unavailable"
  else .ok .cached

/-!
app/norad_cache.py EphemerisFileCache and the per-kind caches, and the
registry of cache instances created at the top of app/restful_api.py
(and in the FastAPI lifespan of tart_catalogue/main.py).
-/

/-- EphemerisFileCache (norad_cache.py lines 90-113): a file cache
whose `get_object(date)` — inherited from the absent file_cache module
— resolves the date to a parsed Sp4Ephemerides or raises. The
resolution step is kept abstract and fallible. -/
structure EphemerisFileCache where
  resolve : Utc → Except String Sp4Ephemerides

/-- EphemerisFileCache.get_positions (norad_cache.py lines 105-108):
resolve the ephemerides for the date, then delegate. -/
def EphemerisFileCache.get_positions (c : EphemerisFileCache)
    (ext : Externals) (date : Utc) : Except String (List PosRecord) :=
  exBind (c.resolve date) (fun eph => .ok (eph.get_positions ext date))

/-- EphemerisFileCache.get_az_el (norad_cache.py lines 110-113):
resolve the ephemerides for the date, then delegate. -/
def EphemerisFileCache.get_az_el (c : EphemerisFileCache)
    (ext : Externals) (date : Utc) (lat lon : Angle) (alt elevation : ℚ) :
    Except String (List AzElRecord) :=
  exBind (c.resolve date) (fun eph =>
    .ok (eph.get_az_el ext date lat lon alt elevation))

/-- SunObject (sun_object.py, absent from src/): the solar
pseudo-catalogue's az-el query, kept fully abstract and fallible. -/
structure SunObject where
  get_az_el : Utc → Angle → Angle → ℚ → ℚ → Except String (List AzElRecord)

/-- The module-level cache registry of app/restful_api.py lines 20-26
(equally, the globals initialised by the FastAPI lifespan in
tart_catalogue/main.py lines 46-59). -/
structure Env where
  waas_cache : EphemerisFileCache
  gps_cache : EphemerisFileCache
  galileo_cache : EphemerisFileCache
  beidou_cache : EphemerisFileCache
  sun : SunObject

/-- get_catalog_list (restful_api.py lines 64-70; identically
main.py lines 116-123): query the four satellite caches then the sun,
concatenating in that order; any uncaught exception aborts the whole
aggregate. -/
def get_catalog_list (env : Env) (ext : Externals) (date : Utc)
    (lat lon : Angle) (alt elevation : ℚ) : Except String (List AzElRecord) :=
  exBind (env.waas_cache.get_az_el ext date lat lon alt elevation) (fun w =>
  exBind (env.gps_cache.get_az_el ext date lat lon alt elevation) (fun g =>
  exBind (env.galileo_cache.get_az_el ext date lat lon alt elevation) (fun ga =>
  exBind (env.beidou_cache.get_az_el ext date lat lon alt elevation) (fun b =>
  exBind (env.sun.get_az_el date lat lon alt elevation) (fun s =>
  .ok (w ++ g ++ ga ++ b ++ s))))))

/-- The /position body (restful_api.py get_pos lines 141-155;
identically the loop over `[waas, gps, galileo, beidou]` in main.py
get_position lines 167-191): concatenate the four satellite kinds'
positions; the sun is never queried. -/
def get_pos (env : Env) (ext : Externals) (date : Utc) :
    Except String (List PosRecord) :=
  exBind (env.waas_cache.get_positions ext date) (fun w =>
  exBind (env.gps_cache.get_positions ext date) (fun g =>
  exBind (env.galileo_cache.get_positions ext date) (fun ga =>
  exBind (env.beidou_cache.get_positions ext date) (fun b =>
  .ok (w ++ g ++ ga ++ b)))))

/-!
Request-date parsing (app/restful_api.py lines 29-53 and
tart_catalogue/main.py lines 96-113) and the HTTP handlers.
Both clock reads (`utc.now()`) of a handler are collapsed to one
`now` parameter.
-/

/-- parse_date (restful_api.py lines 29-39): the literal string "now"
means the current time; otherwise delegate to dateutil (external),
raising on failure. -/
def parse_date (ext : Externals) (s : String) (now : Utc) : Except String Utc :=
  if s = "now" then .ok now
  else
    match ext.parseDate s with
    | some d => .ok d
    | none => .error "Invalid Date"

/-- parse_request_date (restful_api.py lines 42-53): parse the `date`
query parameter when present, default to the current time otherwise,
then reject any date more than 86400 seconds after the current time. -/
def parse_request_date (ext : Externals) (dateArg : Option String)
    (now : Utc) : Except String Utc :=
  exBind (match dateArg with
          | some s => parse_date ext s now
          | none => .ok now) (fun d =>
  if (86400 : ℚ) < (d - now : ℚ) then .error "more than 24 hours in future"
  else .ok d)

/-- parse_date of the FastAPI app (main.py lines 96-113): an absent or
empty date string defaults to the current time; otherwise delegate to
`utc.from_string` (external), raising 400 on failure; then reject any
date more than 86400 seconds after the current time. -/
def parse_date_fastapi (ext : Externals) (dateArg : Option String)
    (now : Utc) : Except String Utc :=
  exBind (match dateArg with
          | some s =>
              if s = "" then .ok now
              else
                match ext.parseDate s with
                | some d => .ok d
                | none => .error "Invalid Date"
          | none => .ok now) (fun d =>
  if (86400 : ℚ) < (d - now : ℚ) then .error "more than 24 hours in future"
  else .ok d)

/-- The query parameters a request to the Flask /catalog endpoint may
carry (each is an optional string; `alt` may be supplied by a client
but is never read by the handler). -/
structure CatalogArgs where
  date : Option String
  lat : Option String
  lon : Option String
  elevation : Option String
  alt : Option String
deriving DecidableEq

/-- get_required_parameter (restful_api.py lines 56-61). -/
def get_required_parameter (arg : Option String) (pname : String) :
    Except String String :=
  match arg with
  | some v => .ok v
  | none => .error ("Missing Required Parameter " ++ pname)

/-- The elevation threshold computed by the Flask /catalog handler
(restful_api.py lines 120-123): `float(request.args.get('elevation'))`
under try/except — absent parameter (None) or unparseable text both
fall back to 0.0. -/
def catalogElevation (ext : Externals) (arg : Option String) : ℚ :=
  match arg with
  | none => 0
  | some s => (ext.pyFloat s).getD 0

/-- The Flask /catalog handler get_catalog (restful_api.py lines
115-126): parse the date, require lat and lon, compute the elevation
threshold with its 0.0 fallback, fix alt = 0.0, and delegate to
get_catalog_list. -/
def get_catalog (env : Env) (ext : Externals) (args : CatalogArgs)
    (now : Utc) : Except String (List AzElRecord) :=
  exBind (parse_request_date ext args.date now) (fun date =>
  exBind (get_required_parameter args.lat "lat") (fun latS =>
  exBind (ofOption (ext.pyFloat latS) "could not convert string to float") (fun la =>
  exBind (get_required_parameter args.lon "lon") (fun lonS =>
  exBind (ofOption (ext.pyFloat lonS) "could not convert string to float") (fun lo =>
  let lat := angle.from_dms la
  let lon := angle.from_dms lo
  let elevation := catalogElevation ext args.elevation
  let alt : ℚ := 0
  get_catalog_list env ext date lat lon alt elevation)))))

/-- The JSON body of a POST to the Flask /bulk_az_el endpoint: the
scalar fields as the raw JSON text `float()` is applied to, plus the
list of date strings. -/
structure BulkBody where
  lat : String
  lon : String
  alt : String
  dates : List String
deriving DecidableEq

/-- The response object assembled by both bulk handlers. -/
structure BulkRes where
  lat : ℚ
  lon : ℚ
  alt : ℚ
  dates : List String
  az_el : List (List AzElRecord)
deriving DecidableEq

/-- The Flask /bulk_az_el handler get_bulk_az_el (restful_api.py lines
184-217): parse lat/lon/alt as floats (any failure aborts), set the
elevation threshold to `float(request_data['alt'])` with a 0.0
fallback, parse every date, echo normalized lat/lon/alt and the ISO
forms of the dates, and compute one catalogue list per date. -/
def get_bulk_az_el (env : Env) (ext : Externals) (body : BulkBody)
    (now : Utc) : Except String BulkRes :=
  exBind (ofOption (ext.pyFloat body.lat) "could not convert string to float") (fun la =>
  exBind (ofOption (ext.pyFloat body.lon) "could not convert string to float") (fun lo =>
  exBind (ofOption (ext.pyFloat body.alt) "could not convert string to float") (fun al =>
  let lat := angle.from_dms la
  let lon := angle.from_dms lo
  let alt := al
  let elevation := (ext.pyFloat body.alt).getD 0
  exBind (listMapE (fun ts => parse_date ext ts now) body.dates) (fun date_list =>
  exBind (listMapE (fun d => get_catalog_list env ext d lat lon alt elevation) date_list) (fun az_el =>
  .ok ⟨lat.to_degrees, lon.to_degrees, alt, date_list.map ext.isoformat, az_el⟩)))))

/-- BulkAzElRequest (main.py lines 197-204): the pydantic-validated
body of the FastAPI /bulk_az_el endpoint. -/
structure BulkAzElRequest where
  lat : ℚ
  lon : ℚ
  alt : ℚ
  dates : List String
deriving DecidableEq

/-- The FastAPI /bulk_az_el handler get_bulk_az_el_fastapi (main.py
lines 207-257): fields arrive already validated as floats, the
elevation threshold is the constant 0.0, each date goes through
parse_date (with its 24-hour check), and one catalogue list is
computed per date. -/
def get_bulk_az_el_fastapi (env : Env) (ext : Externals)
    (request_data : BulkAzElRequest) (now : Utc) : Except String BulkRes :=
  let lat := angle.from_dms request_data.lat
  let lon := angle.from_dms request_data.lon
  let alt := request_data.alt
  let elevation : ℚ := 0
  exBind (listMapE (fun ts => parse_date_fastapi ext (some ts) now) request_data.dates) (fun date_list =>
  exBind (listMapE (fun d => get_catalog_list env ext d lat lon alt elevation) date_list) (fun az_el =>
  .ok ⟨lat.to_degrees, lon.to_degrees, alt, date_list.map ext.isoformat, az_el⟩))

/-!
Theorems settling the claims.
-/

/-- Claim C1, counterexample: in `app_skyfield/skyfield_catalog.py` the
cache key built by `get_cache_file` embeds the intra-day fraction
`t.jd2` (in the sub-directory `int(t.jd2*100)` and in the file name
`f"{t.jd2:02f}_..."`), so two observation timestamps on the same
calendar day (here Julian date 2460286 + 0.1 and + 0.2) map to two
different cache files, falsifying the claim as stated for this
catalogue resolution path. -/
theorem skyfield_cache_key_not_daily :
    sameCalendarDay ⟨2460286, 1/10⟩ ⟨2460286, 2/10⟩ ∧
    get_cache_file "GPS-OPS" ⟨2460286, 1/10⟩ ≠ get_cache_file "GPS-OPS" ⟨2460286, 2/10⟩ := by
  constructor
  · unfold sameCalendarDay
    norm_num
  · intro h
    rw [get_cache_file, get_cache_file, SkyCacheKey.mk.injEq] at h
    have h3 := h.2.2.1
    rw [fmt6, fmt6] at h3
    norm_num [round_eq] at h3

/-- Claim C1 (amended): restricted to the EphemerisFileCache catalogue
kinds — whose key derivation lives in the absent `file_cache` module
and is modelled from the spec and the docstring layout
`name - YYYY - MM - DD.dat` — any two observation timestamps on the
same calendar day yield the identical cache path and hence (with a
fixed parse) the identical parsed catalogue. -/
theorem daily_cache_key_same_day (name : String)
    (parse : DailyPath → Sp4Ephemerides) (d1 d2 : CalDate)
    (h : sameCalendarDate d1 d2) :
    fileCachePath name d1 = fileCachePath name d2 ∧
    fileCache_object name parse d1 = fileCache_object name parse d2 := by
  obtain ⟨hy, hm, hd⟩ := h
  have hpath : fileCachePath name d1 = fileCachePath name d2 := by
    unfold fileCachePath
    rw [hy, hm, hd]
  exact ⟨hpath, by unfold fileCache_object; rw [hpath]⟩

/-- Witness for the amended C1 theorem at two concrete timestamps
09:25:55 and 18:00:00 of 2023-12-07. -/
theorem daily_cache_key_same_day_witness :
    fileCachePath "norad_gps" ⟨2023, 12, 7, 9, 25, 55⟩ =
      fileCachePath "norad_gps" ⟨2023, 12, 7, 18, 0, 0⟩ ∧
    fileCache_object "norad_gps" (fun _ => ⟨1500000, []⟩) ⟨2023, 12, 7, 9, 25, 55⟩ =
      fileCache_object "norad_gps" (fun _ => ⟨1500000, []⟩) ⟨2023, 12, 7, 18, 0, 0⟩ :=
  daily_cache_key_same_day "norad_gps" (fun _ => ⟨1500000, []⟩)
    ⟨2023, 12, 7, 9, 25, 55⟩ ⟨2023, 12, 7, 18, 0, 0⟩ (by decide)

/-- Claim C2, counterexample: at a file age of exactly one refresh
period (`days_old = max_days = 1`) the code `days_old >= max_days`
does trigger a download, while the claim's condition "age exceeds the
refresh period" (strictly greater) does not hold, falsifying the
"exactly when" as stated. -/
theorem download_at_exact_refresh_boundary :
    downloadNeeded ⟨true, 1⟩ = true ∧
    ¬((LoadState.present ⟨true, 1⟩ = false) ∨
       max_days < LoadState.daysOld ⟨true, 1⟩) := by
  constructor
  · rw [downloadNeeded]
    simp only [Bool.not_true, Bool.false_or]
    rw [decide_eq_true_eq]
    norm_num [max_days]
  · rw [not_or]
    constructor
    · simp
    · norm_num [max_days]

/-- Claim C2 (amended): `get_catalog` invokes the remote download
exactly when no local file exists for the computed cache key or that
file's age is at least the refresh period (`days_old >= max_days`,
one day); in every other case the existing file is reused with no
download. -/
theorem download_iff_missing_or_age_ge_period (st : LoadState)
    (fetch : FetchOutcome) :
    (downloadNeeded st = true ↔
      (st.present = false ∨ max_days ≤ st.daysOld)) ∧
    (downloadNeeded st = false → skyfield_fetch st fetch = .ok .cached) := by
  constructor
  · unfold downloadNeeded
    rw [Bool.or_eq_true, Bool.not_eq_true']
    rw [decide_eq_true_eq]
  · intro h
    unfold skyfield_fetch
    rw [h]
    simp

/-- Witness for the amended C2 theorem at a present, half-day-old file:
no download is needed and the existing file is reused. -/
theorem download_iff_missing_or_age_ge_period_witness :
    downloadNeeded ⟨true, 1/2⟩ = false ∧
    skyfield_fetch ⟨true, 1/2⟩ .ok = .ok .cached := by
  have hiff := (download_iff_missing_or_age_ge_period ⟨true, 1/2⟩ FetchOutcome.ok).1
  have hfalse : downloadNeeded ⟨true, 1/2⟩ = false := by
    rw [Bool.eq_false_iff]
    intro hcontra
    rcases hiff.mp hcontra with h | h
    · exact absurd h (by simp)
    · norm_num [max_days] at h
  exact ⟨hfalse,
    (download_iff_missing_or_age_ge_period ⟨true, 1/2⟩ FetchOutcome.ok).2 hfalse⟩

/-- Claim C3, counterexample: in `get_catalog` of
`app_skyfield/skyfield_catalog.py` a failing (re)download raises out of
the function with no fallback, even though a previously downloaded
file exists at the key's path (`present = true`, two days old): the
query fails rather than parsing the stale file. -/
theorem skyfield_no_stale_fallback :
    skyfield_fetch ⟨true, 2⟩ .fail = .error "download failed" ∧
    LoadState.present ⟨true, 2⟩ = true := by
  have hd : downloadNeeded ⟨true, 2⟩ = true := by
    rw [downloadNeeded]
    simp only [Bool.not_true, Bool.false_or]
    rw [decide_eq_true_eq]
    norm_num [max_days]
  constructor
  · rw [skyfield_fetch, hd]
    simp
  · rfl

/-- Claim C3 (amended): the stale-fallback holds for the
EphemerisFileCache kinds, whose fetch logic lives in the absent
`file_cache` module and is modelled from the spec: on fetch failure the
query is served from the existing file when one exists, and fails
fatally exactly when no prior file exists; the skyfield `get_catalog`
in src/ has no such fallback (see the counterexample). -/
theorem fileCache_stale_fallback (st : LoadState) :
    (st.present = true → fileCache_fetch st .fail = .ok .cached) ∧
    (st.present = false → fileCache_fetch st .fail = .error "unavailable") := by
  constructor
  · intro h
    unfold fileCache_fetch downloadNeeded
    rw [h]
    by_cases hd : max_days ≤ st.daysOld
    · simp [hd]
    · simp [hd]
  · intro h
    unfold fileCache_fetch downloadNeeded
    rw [h]
    simp

/-- Witness for the amended C3 theorem: a stale present file is served
on fetch failure; with no file the failure is fatal. -/
theorem fileCache_stale_fallback_witness :
    fileCache_fetch ⟨true, 5⟩ .fail = .ok .cached ∧
    fileCache_fetch ⟨false, 5⟩ .fail = .error "unavailable" :=
  ⟨(fileCache_stale_fallback ⟨true, 5⟩).1 rfl,
   (fileCache_stale_fallback ⟨false, 5⟩).2 rfl⟩

/-- Claim C4 (confirmed): a record appears in
`Sp4Ephemerides.get_az_el(date, lat, lon, alt, elevation)` exactly for
those satellites whose computed elevation (the rounded degree value the
code computes and reports in the `el` field) is at least the
minimum-elevation threshold; no error is ever raised (the function is
total), below-threshold satellites are silently excluded, and every
included record carries the satellite's name, its rounded range `r`,
the computed `el` and `az`, and the catalogue's `jy` tag. -/
theorem get_az_el_mem_iff (ext : Externals) (e : Sp4Ephemerides)
    (date : Utc) (lat lon : Angle) (alt elevation : ℚ) (rec : AzElRecord) :
    rec ∈ e.get_az_el ext date lat lon alt elevation ↔
    ∃ sv, sv ∈ e.satellites ∧
      elevation ≤ round6 ((sv.get_az_el ext date ⟨lat, lon, alt⟩).2.1.degrees) ∧
      rec = ⟨sv.name,
             round1 ((sv.get_az_el ext date ⟨lat, lon, alt⟩).1),
             round6 ((sv.get_az_el ext date ⟨lat, lon, alt⟩).2.1.degrees),
             round6 ((sv.get_az_el ext date ⟨lat, lon, alt⟩).2.2.degrees),
             e.jansky⟩ := by
  unfold Sp4Ephemerides.get_az_el
  rw [List.mem_filterMap]
  constructor
  · rintro ⟨sv, hsv, hf⟩
    by_cases h : elevation ≤ round6 ((sv.get_az_el ext date ⟨lat, lon, alt⟩).2.1.degrees)
    · rw [if_pos h] at hf
      exact ⟨sv, hsv, h, (Option.some.inj hf).symm⟩
    · rw [if_neg h] at hf
      exact absurd hf (by simp)
  · rintro ⟨sv, hsv, h, hrec⟩
    refine ⟨sv, hsv, ?_⟩
    rw [if_pos h, hrec]

/-- Claim C5 (confirmed): in both the Flask `parse_request_date` and
the FastAPI `parse_date`, a supplied date that parses to `d` is
rejected exactly when `d` is more than 86400 seconds after the current
time, a date at most 86400 seconds ahead is accepted unchanged, and an
absent date defaults to the current time. (For the Flask path the
literal string "now" is excluded since it denotes the current time
itself; for the FastAPI path the empty string is excluded since a
falsy date string also defaults to the current time.) -/
theorem date_rejection_iff (ext : Externals) (now : Utc) (s : String) (d : Utc) :
    (s ≠ "now" → ext.parseDate s = some d →
      ((∃ e, parse_request_date ext (some s) now = .error e) ↔
         (86400 : ℚ) < (d - now : ℚ)) ∧
      ((d - now : ℚ) ≤ 86400 → parse_request_date ext (some s) now = .ok d)) ∧
    parse_request_date ext none now = .ok now ∧
    (s ≠ "" → ext.parseDate s = some d →
      ((∃ e, parse_date_fastapi ext (some s) now = .error e) ↔
         (86400 : ℚ) < (d - now : ℚ)) ∧
      ((d - now : ℚ) ≤ 86400 → parse_date_fastapi ext (some s) now = .ok d)) ∧
    parse_date_fastapi ext none now = .ok now := by
  refine ⟨?_, ?_, ?_, ?_⟩
  · intro hs hp
    rw [parse_request_date, parse_date, if_neg hs, hp, exBind_ok]
    constructor
    · by_cases hfut : (86400 : ℚ) < (d - now : ℚ)
      · rw [if_pos hfut]
        exact ⟨fun _ => hfut, fun _ => ⟨_, rfl⟩⟩
      · rw [if_neg hfut]
        constructor
        · rintro ⟨e, he⟩
          exact absurd he (by simp)
        · intro h
          exact absurd h hfut
    · intro h
      rw [if_neg (not_lt_of_le h)]
  · rw [parse_request_date, exBind_ok, if_neg ?_]
    intro h
    have : (now - now : ℚ) = 0 := sub_self _
    rw [this] at h
    norm_num at h
  · intro hs hp
    rw [parse_date_fastapi, if_neg hs, hp, exBind_ok]
    constructor
    · by_cases hfut : (86400 : ℚ) < (d - now : ℚ)
      · rw [if_pos hfut]
        exact ⟨fun _ => hfut, fun _ => ⟨_, rfl⟩⟩
      · rw [if_neg hfut]
        constructor
        · rintro ⟨e, he⟩
          exact absurd he (by simp)
        · intro h
          exact absurd h hfut
    · intro h
      rw [if_neg (not_lt_of_le h)]
  · rw [parse_date_fastapi, exBind_ok, if_neg ?_]
    intro h
    have : (now - now : ℚ) = 0 := sub_self _
    rw [this] at h
    norm_num at h

/-- A concrete external-capability assignment used by the witnesses:
identity coordinate conversions, a fixed horizontal result of range 0,
elevation 10°, azimuth 20°, every string parsing as the float 1, every
date string parsing as the timestamp 1000, a constant ISO rendering. -/
def extW : Externals :=
  ⟨fun _ v => v, fun _ _ => (0, ⟨10⟩, ⟨20⟩),
   fun _ => some 1, fun _ => some 1000, fun _ => "iso"⟩

/-- Witness for the C5 theorem: with the current time 0, the parsed
date 1000 (about 17 minutes ahead) is accepted by both parsers, and an
absent date yields the current time in both. -/
theorem date_rejection_iff_witness :
    parse_request_date extW (some "x") 0 = .ok 1000 ∧
    parse_request_date extW none 0 = .ok 0 ∧
    parse_date_fastapi extW (some "x") 0 = .ok 1000 ∧
    parse_date_fastapi extW none 0 = .ok 0 := by
  have h := date_rejection_iff extW 0 "x" 1000
  refine ⟨(h.1 (by simp) rfl).2 (by norm_num), h.2.1,
          (h.2.2.1 (by simp) rfl).2 (by norm_num), h.2.2.2⟩

/-- Success inversion for exBind: the composite succeeds exactly when
the first step succeeds and the continuation succeeds on its value. -/
theorem exBind_eq_ok {α β : Type} (x : Except String α)
    (f : α → Except String β) (b : β) :
    exBind x f = .ok b ↔ ∃ a, x = .ok a ∧ f a = .ok b := by
  cases x with
  | error e => simp [exBind]
  | ok a => simp [exBind]

/-- Evaluation of `Sp4Ephemerides.get_az_el` on a one-satellite
catalogue whose elevation passes the threshold. -/
theorem get_az_el_singleton (ext : Externals) (j : ℚ) (sv : Sp4Ephemeris)
    (date : Utc) (lat lon : Angle) (alt ele : ℚ)
    (h : ele ≤ round6 ((sv.get_az_el ext date ⟨lat, lon, alt⟩).2.1.degrees)) :
    Sp4Ephemerides.get_az_el ⟨j, [sv]⟩ ext date lat lon alt ele =
      [⟨sv.name, round1 ((sv.get_az_el ext date ⟨lat, lon, alt⟩).1),
        round6 ((sv.get_az_el ext date ⟨lat, lon, alt⟩).2.1.degrees),
        round6 ((sv.get_az_el ext date ⟨lat, lon, alt⟩).2.2.degrees), j⟩] := by
  unfold Sp4Ephemerides.get_az_el
  rw [List.filterMap_cons, List.filterMap_nil]
  rw [if_pos h]

/-- A single concrete satellite used by witnesses and counterexamples. -/
def svW : Sp4Ephemeris := ⟨"SAT-1", fun _ => ((1, 2, 3), (4, 5, 6))⟩

/-- A one-satellite parsed catalogue used by witnesses and
counterexamples. -/
def ephOne : Sp4Ephemerides := ⟨1500000, [svW]⟩

/-- A cache whose resolution always succeeds with `ephOne`. -/
def cacheOk : EphemerisFileCache := ⟨fun _ => .ok ephOne⟩

/-- A cache whose resolution always fails fatally. -/
def cacheBoom : EphemerisFileCache := ⟨fun _ => .error "boom"⟩

/-- A sun object contributing no records. -/
def sunOk : SunObject := ⟨fun _ _ _ _ _ => .ok []⟩

/-- A registry in which every kind resolves successfully. -/
def envOk : Env := ⟨cacheOk, cacheOk, cacheOk, cacheOk, sunOk⟩

/-- A registry in which the SBAS kind fails and all others succeed. -/
def envC6 : Env := ⟨cacheBoom, cacheOk, cacheOk, cacheOk, sunOk⟩

/-- The az-el record `ephOne` produces under `extW` (range 0 rounds to
0, elevation 10° and azimuth 20° round to themselves). -/
def recW : AzElRecord := ⟨"SAT-1", 0, 10, 20, 1500000⟩

/-- Under `extW`, the successful cache yields exactly `[recW]` for any
threshold at most 10. -/
theorem cacheOk_get_az_el (date : Utc) (lat lon : Angle) (alt ele : ℚ)
    (h : ele ≤ 10) :
    EphemerisFileCache.get_az_el cacheOk extW date lat lon alt ele = .ok [recW] := by
  have hsv : Sp4Ephemeris.get_az_el svW extW date ⟨lat, lon, alt⟩ = (0, ⟨10⟩, ⟨20⟩) := rfl
  have h10 : round6 (10 : ℚ) = 10 := by rw [round6]; norm_num [round_eq]
  have h20 : round6 (20 : ℚ) = 20 := by rw [round6]; norm_num [round_eq]
  have h0 : round1 (0 : ℚ) = 0 := by rw [round1]; norm_num [round_eq]
  have hthr : ele ≤ round6 ((Sp4Ephemeris.get_az_el svW extW date
      ⟨lat, lon, alt⟩).2.1.degrees) := by
    rw [hsv]
    show ele ≤ round6 (10 : ℚ)
    rw [h10]
    exact h
  have hlist := get_az_el_singleton extW 1500000 svW date lat lon alt ele hthr
  rw [hsv] at hlist
  simp only [h0, h10, h20] at hlist
  rw [EphemerisFileCache.get_az_el]
  show exBind (Except.ok ephOne) _ = _
  rw [exBind_ok]
  show Except.ok (Sp4Ephemerides.get_az_el ⟨1500000, [svW]⟩ extW date lat lon alt ele) = _
  rw [hlist]
  rfl

/-- Claim C6, counterexample: with the SBAS cache failing fatally
("boom") while the GPS, Galileo and Beidou caches would each
contribute a record and the sun would contribute an empty list, the
aggregate `get_catalog_list` returns the bare error — not a partial
result carrying the other kinds' contributions with an error
annotation — falsifying the claim as stated. -/
theorem aggregate_error_not_partial :
    get_catalog_list envC6 extW 0 ⟨0⟩ ⟨0⟩ 0 0 = .error "boom" ∧
    EphemerisFileCache.get_az_el envC6.gps_cache extW 0 ⟨0⟩ ⟨0⟩ 0 0 = .ok [recW] := by
  constructor
  · rfl
  · exact cacheOk_get_az_el 0 ⟨0⟩ ⟨0⟩ 0 0 (by norm_num)

/-- Claim C6 (amended): when any catalogue kind's cache fails during an
aggregate query, the whole aggregate fails with the first failing
kind's error (no partial result, no per-kind annotation); the
aggregate succeeds — with the per-kind concatenation in registry
order — exactly when every kind (the four satellite caches and the
sun) succeeds. -/
theorem aggregate_fails_when_any_kind_fails (env : Env) (ext : Externals)
    (date : Utc) (lat lon : Angle) (alt ele : ℚ) :
    ((∃ l, get_catalog_list env ext date lat lon alt ele = .ok l) ↔
      ((∃ w, env.waas_cache.get_az_el ext date lat lon alt ele = .ok w) ∧
       (∃ g, env.gps_cache.get_az_el ext date lat lon alt ele = .ok g) ∧
       (∃ ga, env.galileo_cache.get_az_el ext date lat lon alt ele = .ok ga) ∧
       (∃ b, env.beidou_cache.get_az_el ext date lat lon alt ele = .ok b) ∧
       (∃ s, env.sun.get_az_el date lat lon alt ele = .ok s))) ∧
    (∀ w g ga b s,
      env.waas_cache.get_az_el ext date lat lon alt ele = .ok w →
      env.gps_cache.get_az_el ext date lat lon alt ele = .ok g →
      env.galileo_cache.get_az_el ext date lat lon alt ele = .ok ga →
      env.beidou_cache.get_az_el ext date lat lon alt ele = .ok b →
      env.sun.get_az_el date lat lon alt ele = .ok s →
      get_catalog_list env ext date lat lon alt ele = .ok (w ++ g ++ ga ++ b ++ s)) ∧
    (∀ e, env.waas_cache.get_az_el ext date lat lon alt ele = .error e →
      get_catalog_list env ext date lat lon alt ele = .error e) := by
  refine ⟨?_, ?_, ?_⟩
  · constructor
    · rintro ⟨l, hl⟩
      rw [get_catalog_list, exBind_eq_ok] at hl
      obtain ⟨w, hw, hl⟩ := hl
      rw [exBind_eq_ok] at hl
      obtain ⟨g, hg, hl⟩ := hl
      rw [exBind_eq_ok] at hl
      obtain ⟨ga, hga, hl⟩ := hl
      rw [exBind_eq_ok] at hl
      obtain ⟨b, hb, hl⟩ := hl
      rw [exBind_eq_ok] at hl
      obtain ⟨s, hs, _⟩ := hl
      exact ⟨⟨w, hw⟩, ⟨g, hg⟩, ⟨ga, hga⟩, ⟨b, hb⟩, ⟨s, hs⟩⟩
    · rintro ⟨⟨w, hw⟩, ⟨g, hg⟩, ⟨ga, hga⟩, ⟨b, hb⟩, ⟨s, hs⟩⟩
      refine ⟨w ++ g ++ ga ++ b ++ s, ?_⟩
      rw [get_catalog_list, hw, exBind_ok, hg, exBind_ok, hga, exBind_ok,
          hb, exBind_ok, hs, exBind_ok]
  · intro w g ga b s hw hg hga hb hs
    rw [get_catalog_list, hw, exBind_ok, hg, exBind_ok, hga, exBind_ok,
        hb, exBind_ok, hs, exBind_ok]
  · intro e he
    rw [get_catalog_list, he, exBind_error]

/-- Witness for the amended C6 theorem: in the all-successful registry
the aggregate succeeds with the four kinds' records concatenated in
registry order, followed by the sun's (empty) contribution. -/
theorem aggregate_fails_when_any_kind_fails_witness :
    get_catalog_list envOk extW 0 ⟨0⟩ ⟨0⟩ 0 0 =
      .ok ([recW] ++ [recW] ++ [recW] ++ [recW] ++ []) := by
  have hc := cacheOk_get_az_el 0 ⟨0⟩ ⟨0⟩ 0 0 (by norm_num)
  exact (aggregate_fails_when_any_kind_fails envOk extW 0 ⟨0⟩ ⟨0⟩ 0 0).2.1
    [recW] [recW] [recW] [recW] [] hc hc hc hc rfl

/-- Claim C7 (confirmed): the /position body (Flask `get_pos` and the
FastAPI `get_position` alike) concatenates exactly the four satellite
catalogue kinds' position lists — SBAS (waas), GPS, Galileo, Beidou,
in that order — where each kind contributes one record per satellite
with fields name, ecef, ecef_dot and jy; the sun is never queried, so
replacing the registry's sun object leaves the result unchanged. -/
theorem position_from_four_kinds (env : Env) (ext : Externals) (date : Utc) :
    (∀ l, get_pos env ext date = .ok l →
      ∃ w g ga b,
        env.waas_cache.resolve date = .ok w ∧
        env.gps_cache.resolve date = .ok g ∧
        env.galileo_cache.resolve date = .ok ga ∧
        env.beidou_cache.resolve date = .ok b ∧
        l = w.get_positions ext date ++ g.get_positions ext date ++
            ga.get_positions ext date ++ b.get_positions ext date) ∧
    (∀ sun', get_pos { env with sun := sun' } ext date = get_pos env ext date) ∧
    (∀ e : Sp4Ephemerides, e.get_positions ext date =
      e.satellites.map (fun sv =>
        ⟨sv.name, (sv.get_position ext date).1, (sv.get_position ext date).2, e.jansky⟩)) := by
  refine ⟨?_, ?_, ?_⟩
  · intro l hl
    rw [get_pos] at hl
    rw [EphemerisFileCache.get_positions, EphemerisFileCache.get_positions,
        EphemerisFileCache.get_positions, EphemerisFileCache.get_positions] at hl
    cases hw : env.waas_cache.resolve date with
    | error e => rw [hw, exBind_error, exBind_error] at hl; exact absurd hl (by simp)
    | ok w =>
      rw [hw, exBind_ok, exBind_ok] at hl
      cases hg : env.gps_cache.resolve date with
      | error e => rw [hg, exBind_error, exBind_error] at hl; exact absurd hl (by simp)
      | ok g =>
        rw [hg, exBind_ok, exBind_ok] at hl
        cases hga : env.galileo_cache.resolve date with
        | error e => rw [hga, exBind_error, exBind_error] at hl; exact absurd hl (by simp)
        | ok ga =>
          rw [hga, exBind_ok, exBind_ok] at hl
          cases hb : env.beidou_cache.resolve date with
          | error e => rw [hb, exBind_error, exBind_error] at hl; exact absurd hl (by simp)
          | ok b =>
            rw [hb, exBind_ok, exBind_ok] at hl
            refine ⟨w, g, ga, b, rfl, rfl, rfl, rfl, ?_⟩
            exact (Except.ok.inj hl).symm
  · intro sun'
    rfl
  · intro e
    rfl

/-- Witness for the C7 theorem: in the all-successful registry the
/position body returns the four kinds' position records in registry
order, and the successful resolutions exist as the theorem asserts. -/
theorem position_from_four_kinds_witness :
    ∃ w g ga b,
      envOk.waas_cache.resolve 0 = .ok w ∧
      envOk.gps_cache.resolve 0 = .ok g ∧
      envOk.galileo_cache.resolve 0 = .ok ga ∧
      envOk.beidou_cache.resolve 0 = .ok b ∧
      (ephOne.get_positions extW 0 ++ ephOne.get_positions extW 0 ++
        ephOne.get_positions extW 0 ++ ephOne.get_positions extW 0) =
        w.get_positions extW 0 ++ g.get_positions extW 0 ++
          ga.get_positions extW 0 ++ b.get_positions extW 0 := by
  refine (position_from_four_kinds envOk extW 0).1
    (ephOne.get_positions extW 0 ++ ephOne.get_positions extW 0 ++
      ephOne.get_positions extW 0 ++ ephOne.get_positions extW 0) ?_
  rw [get_pos]
  rfl

/-!
Helper lemmas shared by the remaining handler theorems and their
witnesses.
-/

/-- parse_request_date with no date parameter returns the current time. -/
theorem parse_request_date_none (ext : Externals) (now : Utc) :
    parse_request_date ext none now = .ok now := by
  rw [parse_request_date, exBind_ok, if_neg]
  intro h
  rw [sub_self] at h
  norm_num at h

/-- parse_date_fastapi accepts a parsed date at most 24 hours ahead. -/
theorem parse_date_fastapi_some_ok (ext : Externals) (now : Utc) (s : String)
    (d : Utc) (hs : s ≠ "") (hp : ext.parseDate s = some d)
    (h : (d - now : ℚ) ≤ 86400) :
    parse_date_fastapi ext (some s) now = .ok d := by
  rw [parse_date_fastapi, if_neg hs, hp, exBind_ok, if_neg (not_lt_of_le h)]

/-- listMapE over a one-element list. -/
theorem listMapE_singleton {α β : Type} (f : α → Except String β) (a : α)
    (b : β) (h : f a = .ok b) : listMapE f [a] = .ok [b] := by
  rw [listMapE, h, exBind_ok, listMapE, exBind_ok]

/-- Any record produced by `Sp4Ephemerides.get_az_el` has its `el`
field at least the threshold. -/
theorem get_az_el_el_ge (ext : Externals) (e : Sp4Ephemerides) (date : Utc)
    (lat lon : Angle) (alt ele : ℚ) (rec : AzElRecord)
    (h : rec ∈ e.get_az_el ext date lat lon alt ele) : ele ≤ rec.el := by
  unfold Sp4Ephemerides.get_az_el at h
  rw [List.mem_filterMap] at h
  obtain ⟨sv, _, hf⟩ := h
  by_cases hc : ele ≤ round6 ((sv.get_az_el ext date ⟨lat, lon, alt⟩).2.1.degrees)
  · rw [if_pos hc] at hf
    cases hf
    exact hc
  · rw [if_neg hc] at hf
    exact absurd hf (by simp)

/-- Inversion for a successful cache az-el query: the cache resolved to
some parsed catalogue whose query produced the list. -/
theorem cache_az_el_ok_dest (c : EphemerisFileCache) (ext : Externals)
    (date : Utc) (lat lon : Angle) (alt ele : ℚ) (l : List AzElRecord)
    (h : c.get_az_el ext date lat lon alt ele = .ok l) :
    ∃ eph, c.resolve date = .ok eph ∧ l = eph.get_az_el ext date lat lon alt ele := by
  rw [EphemerisFileCache.get_az_el] at h
  cases hr : c.resolve date with
  | error e => rw [hr, exBind_error] at h; exact absurd h (by simp)
  | ok eph =>
    rw [hr, exBind_ok] at h
    exact ⟨eph, rfl, (Except.ok.inj h).symm⟩

/-- Every record of a successful aggregate query either passed the
elevation threshold (it came from one of the four satellite caches) or
belongs to the sun's contribution. -/
theorem mem_catalog_list (env : Env) (ext : Externals) (date : Utc)
    (lat lon : Angle) (alt ele : ℚ) (l : List AzElRecord) (rec : AzElRecord)
    (h : get_catalog_list env ext date lat lon alt ele = .ok l) (hm : rec ∈ l) :
    ele ≤ rec.el ∨
      ∃ sl, env.sun.get_az_el date lat lon alt ele = .ok sl ∧ rec ∈ sl := by
  rw [get_catalog_list, exBind_eq_ok] at h
  obtain ⟨w, hw, h⟩ := h
  rw [exBind_eq_ok] at h
  obtain ⟨g, hg, h⟩ := h
  rw [exBind_eq_ok] at h
  obtain ⟨ga, hga, h⟩ := h
  rw [exBind_eq_ok] at h
  obtain ⟨b, hb, h⟩ := h
  rw [exBind_eq_ok] at h
  obtain ⟨s, hs, h⟩ := h
  cases h
  obtain ⟨we, hwe, hwl⟩ := cache_az_el_ok_dest _ _ _ _ _ _ _ _ hw
  obtain ⟨ge, hge, hgl⟩ := cache_az_el_ok_dest _ _ _ _ _ _ _ _ hg
  obtain ⟨gae, hgae, hgal⟩ := cache_az_el_ok_dest _ _ _ _ _ _ _ _ hga
  obtain ⟨be, hbe, hbl⟩ := cache_az_el_ok_dest _ _ _ _ _ _ _ _ hb
  simp only [List.mem_append] at hm
  rcases hm with ((((hm | hm) | hm) | hm) | hm)
  · exact Or.inl (get_az_el_el_ge ext we date lat lon alt ele rec (hwl ▸ hm))
  · exact Or.inl (get_az_el_el_ge ext ge date lat lon alt ele rec (hgl ▸ hm))
  · exact Or.inl (get_az_el_el_ge ext gae date lat lon alt ele rec (hgal ▸ hm))
  · exact Or.inl (get_az_el_el_ge ext be date lat lon alt ele rec (hbl ▸ hm))
  · exact Or.inr ⟨s, hs, hm⟩

/-- In the all-successful registry, the aggregate query yields one
record per satellite kind for any threshold at most 10°. -/
theorem envOk_get_catalog_list (d : Utc) (lat lon : Angle) (alt ele : ℚ)
    (h : ele ≤ 10) :
    get_catalog_list envOk extW d lat lon alt ele = .ok [recW, recW, recW, recW] := by
  have hc := cacheOk_get_az_el d lat lon alt ele h
  have hsun : SunObject.get_az_el sunOk d lat lon alt ele = .ok [] := rfl
  rw [get_catalog_list]
  rw [show envOk.waas_cache = cacheOk from rfl, show envOk.gps_cache = cacheOk from rfl,
      show envOk.galileo_cache = cacheOk from rfl, show envOk.beidou_cache = cacheOk from rfl,
      show envOk.sun = sunOk from rfl]
  rw [hc, exBind_ok, exBind_ok, exBind_ok, exBind_ok, hsun, exBind_ok]
  rfl

/-- Success inversion for the Flask bulk handler: a successful response
determines parsed floats, parsed dates and per-date catalogue lists,
and the response object is exactly the echo the handler assembles. -/
theorem get_bulk_az_el_ok_dest (env : Env) (ext : Externals) (body : BulkBody)
    (now : Utc) (res : BulkRes)
    (h : get_bulk_az_el env ext body now = .ok res) :
    ∃ la lo al ds azl,
      ext.pyFloat body.lat = some la ∧
      ext.pyFloat body.lon = some lo ∧
      ext.pyFloat body.alt = some al ∧
      listMapE (fun ts => parse_date ext ts now) body.dates = .ok ds ∧
      listMapE (fun d => get_catalog_list env ext d (angle.from_dms la)
        (angle.from_dms lo) al al) ds = .ok azl ∧
      res = ⟨(angle.from_dms la).to_degrees, (angle.from_dms lo).to_degrees, al,
             ds.map ext.isoformat, azl⟩ := by
  rw [get_bulk_az_el] at h
  cases hla : ext.pyFloat body.lat with
  | none =>
    rw [hla] at h
    simp only [ofOption, exBind_error] at h
    exact absurd h (by simp)
  | some la =>
    rw [hla] at h
    simp only [ofOption, exBind_ok] at h
    cases hlo : ext.pyFloat body.lon with
    | none =>
      rw [hlo] at h
      simp only [ofOption, exBind_error] at h
      exact absurd h (by simp)
    | some lo =>
      rw [hlo] at h
      simp only [ofOption, exBind_ok] at h
      cases hal : ext.pyFloat body.alt with
      | none =>
        rw [hal] at h
        simp only [ofOption, exBind_error] at h
        exact absurd h (by simp)
      | some al =>
        rw [hal] at h
        simp only [ofOption, exBind_ok, Option.getD] at h
        cases hds : listMapE (fun ts => parse_date ext ts now) body.dates with
        | error e =>
          rw [hds] at h
          simp only [exBind_error] at h
          exact absurd h (by simp)
        | ok ds =>
          rw [hds] at h
          simp only [exBind_ok] at h
          cases hazl : listMapE (fun d => get_catalog_list env ext d
              (angle.from_dms la) (angle.from_dms lo) al al) ds with
          | error e =>
            rw [hazl] at h
            simp only [exBind_error] at h
            exact absurd h (by simp)
          | ok azl =>
            rw [hazl] at h
            simp only [exBind_ok] at h
            exact ⟨la, lo, al, ds, azl, rfl, rfl, rfl, rfl, hazl,
                   (Except.ok.inj h).symm⟩

/-- Forward construction for the Flask bulk handler: successful parses
assemble the echoed response. -/
theorem get_bulk_az_el_build (env : Env) (ext : Externals) (body : BulkBody)
    (now : Utc) (la lo al : ℚ) (ds : List Utc) (azl : List (List AzElRecord))
    (hla : ext.pyFloat body.lat = some la)
    (hlo : ext.pyFloat body.lon = some lo)
    (hal : ext.pyFloat body.alt = some al)
    (hds : listMapE (fun ts => parse_date ext ts now) body.dates = .ok ds)
    (hazl : listMapE (fun d => get_catalog_list env ext d (angle.from_dms la)
      (angle.from_dms lo) al al) ds = .ok azl) :
    get_bulk_az_el env ext body now =
      .ok ⟨(angle.from_dms la).to_degrees, (angle.from_dms lo).to_degrees, al,
           ds.map ext.isoformat, azl⟩ := by
  rw [get_bulk_az_el, hla, hlo, hal]
  simp only [ofOption, exBind_ok, Option.getD]
  rw [hds, exBind_ok, hazl, exBind_ok]

/-- Success inversion for the FastAPI bulk handler. -/
theorem get_bulk_az_el_fastapi_ok_dest (env : Env) (ext : Externals)
    (rd : BulkAzElRequest) (now : Utc) (res : BulkRes)
    (h : get_bulk_az_el_fastapi env ext rd now = .ok res) :
    ∃ ds azl,
      listMapE (fun ts => parse_date_fastapi ext (some ts) now) rd.dates = .ok ds ∧
      listMapE (fun d => get_catalog_list env ext d (angle.from_dms rd.lat)
        (angle.from_dms rd.lon) rd.alt 0) ds = .ok azl ∧
      res = ⟨(angle.from_dms rd.lat).to_degrees, (angle.from_dms rd.lon).to_degrees,
             rd.alt, ds.map ext.isoformat, azl⟩ := by
  rw [get_bulk_az_el_fastapi] at h
  cases hds : listMapE (fun ts => parse_date_fastapi ext (some ts) now) rd.dates with
  | error e =>
    rw [hds] at h
    simp only [exBind_error] at h
    exact absurd h (by simp)
  | ok ds =>
    rw [hds] at h
    simp only [exBind_ok] at h
    cases hazl : listMapE (fun d => get_catalog_list env ext d
        (angle.from_dms rd.lat) (angle.from_dms rd.lon) rd.alt 0) ds with
    | error e =>
      rw [hazl] at h
      simp only [exBind_error] at h
      exact absurd h (by simp)
    | ok azl =>
      rw [hazl] at h
      simp only [exBind_ok] at h
      exact ⟨ds, azl, rfl, hazl, (Except.ok.inj h).symm⟩

/-- Forward construction for the FastAPI bulk handler. -/
theorem get_bulk_az_el_fastapi_build (env : Env) (ext : Externals)
    (rd : BulkAzElRequest) (now : Utc) (ds : List Utc)
    (azl : List (List AzElRecord))
    (hds : listMapE (fun ts => parse_date_fastapi ext (some ts) now) rd.dates = .ok ds)
    (hazl : listMapE (fun d => get_catalog_list env ext d (angle.from_dms rd.lat)
      (angle.from_dms rd.lon) rd.alt 0) ds = .ok azl) :
    get_bulk_az_el_fastapi env ext rd now =
      .ok ⟨(angle.from_dms rd.lat).to_degrees, (angle.from_dms rd.lon).to_degrees,
           rd.alt, ds.map ext.isoformat, azl⟩ := by
  rw [get_bulk_az_el_fastapi]
  rw [hds, exBind_ok, hazl, exBind_ok]

/-- Claim C8 (confirmed): for both bulk handlers (Flask
`get_bulk_az_el` and FastAPI `get_bulk_az_el_fastapi`), a successful
response echoes the normalized lat/lon/alt, lists the parsed input
dates in ISO form in input order, and carries in `az_el` exactly one
/catalog-shaped az-el list per input date, the i-th computed for the
i-th parsed date. -/
theorem bulk_az_el_echo :
    (∀ (env : Env) (ext : Externals) (body : BulkBody) (now : Utc) (res : BulkRes),
      get_bulk_az_el env ext body now = .ok res →
      ∃ la lo al ds,
        ext.pyFloat body.lat = some la ∧
        ext.pyFloat body.lon = some lo ∧
        ext.pyFloat body.alt = some al ∧
        listMapE (fun ts => parse_date ext ts now) body.dates = .ok ds ∧
        res.lat = (angle.from_dms la).to_degrees ∧
        res.lon = (angle.from_dms lo).to_degrees ∧
        res.alt = al ∧
        res.dates = ds.map ext.isoformat ∧
        ds.length = body.dates.length ∧
        res.az_el.length = body.dates.length ∧
        ∀ (i : ℕ) (h1 : i < ds.length) (h2 : i < res.az_el.length),
          get_catalog_list env ext (ds.get ⟨i, h1⟩) (angle.from_dms la)
            (angle.from_dms lo) al al = .ok (res.az_el.get ⟨i, h2⟩)) ∧
    (∀ (env : Env) (ext : Externals) (rd : BulkAzElRequest) (now : Utc) (res : BulkRes),
      get_bulk_az_el_fastapi env ext rd now = .ok res →
      ∃ ds,
        listMapE (fun ts => parse_date_fastapi ext (some ts) now) rd.dates = .ok ds ∧
        res.lat = (angle.from_dms rd.lat).to_degrees ∧
        res.lon = (angle.from_dms rd.lon).to_degrees ∧
        res.alt = rd.alt ∧
        res.dates = ds.map ext.isoformat ∧
        ds.length = rd.dates.length ∧
        res.az_el.length = rd.dates.length ∧
        ∀ (i : ℕ) (h1 : i < ds.length) (h2 : i < res.az_el.length),
          get_catalog_list env ext (ds.get ⟨i, h1⟩) (angle.from_dms rd.lat)
            (angle.from_dms rd.lon) rd.alt 0 = .ok (res.az_el.get ⟨i, h2⟩)) := by
  constructor
  · intro env ext body now res h
    obtain ⟨la, lo, al, ds, azl, hla, hlo, hal, hds, hazl, hres⟩ :=
      get_bulk_az_el_ok_dest env ext body now res h
    subst hres
    refine ⟨la, lo, al, ds, hla, hlo, hal, hds, rfl, rfl, rfl, rfl,
            listMapE_ok_length _ _ _ hds, ?_, ?_⟩
    · exact (listMapE_ok_length _ _ _ hazl).trans (listMapE_ok_length _ _ _ hds)
    · intro i h1 h2
      exact listMapE_ok_get _ ds azl hazl i h1 h2
  · intro env ext rd now res h
    obtain ⟨ds, azl, hds, hazl, hres⟩ :=
      get_bulk_az_el_fastapi_ok_dest env ext rd now res h
    subst hres
    refine ⟨ds, hds, rfl, rfl, rfl, rfl,
            listMapE_ok_length _ _ _ hds, ?_, ?_⟩
    · exact (listMapE_ok_length _ _ _ hazl).trans (listMapE_ok_length _ _ _ hds)
    · intro i h1 h2
      exact listMapE_ok_get _ ds azl hazl i h1 h2

/-- A concrete Flask bulk request body used by witnesses. -/
def bodyW : BulkBody := ⟨"1", "2", "3", ["d"]⟩

/-- A concrete FastAPI bulk request body used by witnesses. -/
def rdW : BulkAzElRequest := ⟨1, 2, 3, ["d"]⟩

/-- The response the Flask bulk handler produces for `bodyW` under
`envOk`/`extW` at current time 0. -/
def resW : BulkRes := ⟨1, 1, 1, ["iso"], [[recW, recW, recW, recW]]⟩

/-- The response the FastAPI bulk handler produces for `rdW` under
`envOk`/`extW` at current time 0. -/
def resF : BulkRes := ⟨1, 2, 3, ["iso"], [[recW, recW, recW, recW]]⟩

/-- The Flask bulk handler evaluated on the concrete witness request. -/
theorem get_bulk_az_el_at_bodyW :
    get_bulk_az_el envOk extW bodyW 0 = .ok resW := by
  have hds : listMapE (fun ts => parse_date extW ts 0) bodyW.dates = .ok [1000] :=
    listMapE_singleton _ "d" 1000 rfl
  have hcat := envOk_get_catalog_list 1000 (angle.from_dms 1) (angle.from_dms 1) 1 1
    (by norm_num)
  have hazl : listMapE (fun d => get_catalog_list envOk extW d (angle.from_dms 1)
      (angle.from_dms 1) 1 1) [1000] = .ok [[recW, recW, recW, recW]] :=
    listMapE_singleton _ 1000 [recW, recW, recW, recW] hcat
  have hb := get_bulk_az_el_build envOk extW bodyW 0 1 1 1 [1000]
    [[recW, recW, recW, recW]] rfl rfl rfl hds hazl
  rw [hb]
  rfl

/-- The FastAPI bulk handler evaluated on the concrete witness request. -/
theorem get_bulk_az_el_fastapi_at_rdW :
    get_bulk_az_el_fastapi envOk extW rdW 0 = .ok resF := by
  have hp : parse_date_fastapi extW (some "d") 0 = .ok 1000 :=
    parse_date_fastapi_some_ok extW 0 "d" 1000 (by simp) rfl (by norm_num)
  have hds : listMapE (fun ts => parse_date_fastapi extW (some ts) 0) rdW.dates =
      .ok [1000] := listMapE_singleton _ "d" 1000 hp
  have hcat := envOk_get_catalog_list 1000 (angle.from_dms rdW.lat)
    (angle.from_dms rdW.lon) rdW.alt 0 (by norm_num)
  have hazl : listMapE (fun d => get_catalog_list envOk extW d (angle.from_dms rdW.lat)
      (angle.from_dms rdW.lon) rdW.alt 0) [1000] = .ok [[recW, recW, recW, recW]] :=
    listMapE_singleton _ 1000 [recW, recW, recW, recW] hcat
  have hb := get_bulk_az_el_fastapi_build envOk extW rdW 0 [1000]
    [[recW, recW, recW, recW]] hds hazl
  rw [hb]
  rfl

/-- Witness for the C8 theorem: both bulk handlers evaluated at a
concrete one-date request, with both hypotheses discharged by the
concrete evaluations above. -/
theorem bulk_az_el_echo_witness :
    (∃ la lo al ds,
      extW.pyFloat bodyW.lat = some la ∧
      extW.pyFloat bodyW.lon = some lo ∧
      extW.pyFloat bodyW.alt = some al ∧
      listMapE (fun ts => parse_date extW ts 0) bodyW.dates = .ok ds ∧
      resW.lat = (angle.from_dms la).to_degrees ∧
      resW.lon = (angle.from_dms lo).to_degrees ∧
      resW.alt = al ∧
      resW.dates = ds.map extW.isoformat ∧
      ds.length = bodyW.dates.length ∧
      resW.az_el.length = bodyW.dates.length ∧
      ∀ (i : ℕ) (h1 : i < ds.length) (h2 : i < resW.az_el.length),
        get_catalog_list envOk extW (ds.get ⟨i, h1⟩) (angle.from_dms la)
          (angle.from_dms lo) al al = .ok (resW.az_el.get ⟨i, h2⟩)) ∧
    (∃ ds,
      listMapE (fun ts => parse_date_fastapi extW (some ts) 0) rdW.dates = .ok ds ∧
      resF.lat = (angle.from_dms rdW.lat).to_degrees ∧
      resF.lon = (angle.from_dms rdW.lon).to_degrees ∧
      resF.alt = rdW.alt ∧
      resF.dates = ds.map extW.isoformat ∧
      ds.length = rdW.dates.length ∧
      resF.az_el.length = rdW.dates.length ∧
      ∀ (i : ℕ) (h1 : i < ds.length) (h2 : i < resF.az_el.length),
        get_catalog_list envOk extW (ds.get ⟨i, h1⟩) (angle.from_dms rdW.lat)
          (angle.from_dms rdW.lon) rdW.alt 0 = .ok (resF.az_el.get ⟨i, h2⟩)) :=
  ⟨bulk_az_el_echo.1 envOk extW bodyW 0 resW get_bulk_az_el_at_bodyW,
   bulk_az_el_echo.2 envOk extW rdW 0 resF get_bulk_az_el_fastapi_at_rdW⟩

/-- Claim C9 (confirmed): in the Flask bulk handler the
minimum-elevation threshold passed to every per-date catalogue query
equals the request body's `alt` field parsed as a float (the
0.0 fallback at lines 198-201 can only trigger when that same parse
already failed at line 197, which aborts the request), so every
satellite record in every `az_el` entry has elevation at least the
parsed `alt` — only the sun's contribution escapes the filter. -/
theorem bulk_threshold_is_alt (env : Env) (ext : Externals) (body : BulkBody)
    (now : Utc) (res : BulkRes) (a : ℚ)
    (h : get_bulk_az_el env ext body now = .ok res)
    (ha : ext.pyFloat body.alt = some a) :
    res.alt = a ∧
    ∃ la lo ds,
      ext.pyFloat body.lat = some la ∧
      ext.pyFloat body.lon = some lo ∧
      listMapE (fun ts => parse_date ext ts now) body.dates = .ok ds ∧
      ∀ (i : ℕ) (h1 : i < ds.length) (h2 : i < res.az_el.length),
        get_catalog_list env ext (ds.get ⟨i, h1⟩) (angle.from_dms la)
          (angle.from_dms lo) a a = .ok (res.az_el.get ⟨i, h2⟩) ∧
        ∀ rec ∈ res.az_el.get ⟨i, h2⟩, a ≤ rec.el ∨
          ∃ sl, env.sun.get_az_el (ds.get ⟨i, h1⟩) (angle.from_dms la)
            (angle.from_dms lo) a a = .ok sl ∧ rec ∈ sl := by
  obtain ⟨la, lo, al, ds, azl, hla, hlo, hal, hds, hazl, hres⟩ :=
    get_bulk_az_el_ok_dest env ext body now res h
  have haa : al = a := by
    rw [hal] at ha
    exact Option.some.inj ha
  subst haa
  subst hres
  refine ⟨rfl, la, lo, ds, hla, hlo, hds, ?_⟩
  intro i h1 h2
  have hcat := listMapE_ok_get _ ds azl hazl i h1 h2
  refine ⟨hcat, ?_⟩
  intro rec hrec
  exact mem_catalog_list env ext (ds.get ⟨i, h1⟩) (angle.from_dms la)
    (angle.from_dms lo) al al _ rec hcat hrec

/-- Witness for the C9 theorem: the concrete bulk request with
`alt = "3"` parsed as 1 under `extW` yields a response whose `alt`
echoes the parsed float and whose per-date queries used it as the
threshold. -/
theorem bulk_threshold_is_alt_witness :
    resW.alt = 1 ∧
    ∃ la lo ds,
      extW.pyFloat bodyW.lat = some la ∧
      extW.pyFloat bodyW.lon = some lo ∧
      listMapE (fun ts => parse_date extW ts 0) bodyW.dates = .ok ds ∧
      ∀ (i : ℕ) (h1 : i < ds.length) (h2 : i < resW.az_el.length),
        get_catalog_list envOk extW (ds.get ⟨i, h1⟩) (angle.from_dms la)
          (angle.from_dms lo) 1 1 = .ok (resW.az_el.get ⟨i, h2⟩) ∧
        ∀ rec ∈ resW.az_el.get ⟨i, h2⟩, 1 ≤ rec.el ∨
          ∃ sl, envOk.sun.get_az_el (ds.get ⟨i, h1⟩) (angle.from_dms la)
            (angle.from_dms lo) 1 1 = .ok sl ∧ rec ∈ sl :=
  bulk_threshold_is_alt envOk extW bodyW 0 resW 1 get_bulk_az_el_at_bodyW rfl

/-- A concrete /catalog query-parameter set used by the C10 witness:
no date parameter, lat "1", lon "2", no elevation parameter, and an
alt parameter "9" that the handler must ignore. -/
def argsW : CatalogArgs := ⟨none, some "1", some "2", none, some "9"⟩

/-- Claim C10 (confirmed): the Flask /catalog handler passes the
constant 0.0 as the observer altitude regardless of any query
parameter (in particular the result is invariant under the `alt`
query parameter, which it never reads), and the elevation threshold
defaults to 0.0 whenever the `elevation` parameter is absent or does
not parse as a float. -/
theorem catalog_alt_zero_and_ele_default (env : Env) (ext : Externals)
    (args : CatalogArgs) (now : Utc) :
    (∀ s', get_catalog env ext { args with alt := s' } now =
      get_catalog env ext args now) ∧
    (∀ d sla la slo lo,
      parse_request_date ext args.date now = .ok d →
      args.lat = some sla → ext.pyFloat sla = some la →
      args.lon = some slo → ext.pyFloat slo = some lo →
      get_catalog env ext args now =
        get_catalog_list env ext d (angle.from_dms la) (angle.from_dms lo) 0
          (catalogElevation ext args.elevation)) ∧
    (args.elevation = none → catalogElevation ext args.elevation = 0) ∧
    (∀ s, args.elevation = some s → ext.pyFloat s = none →
      catalogElevation ext args.elevation = 0) := by
  refine ⟨?_, ?_, ?_, ?_⟩
  · intro s'
    rfl
  · intro d sla la slo lo hd hlat hla hlon hlo
    rw [get_catalog, hd, exBind_ok, hlat]
    simp only [get_required_parameter, exBind_ok]
    rw [hla]
    simp only [ofOption, exBind_ok]
    rw [hlon]
    simp only [get_required_parameter, exBind_ok]
    rw [hlo]
    simp only [ofOption, exBind_ok]
  · intro h
    rw [h]
    rfl
  · intro s hs hn
    rw [hs]
    simp only [catalogElevation]
    rw [hn]
    rfl

/-- Witness for the C10 theorem at the concrete query `argsW`: the
`alt` query parameter is ignored, the handler reduces to the aggregate
query with observer altitude 0, and the absent elevation parameter
defaults the threshold to 0. -/
theorem catalog_alt_zero_and_ele_default_witness :
    get_catalog envOk extW { argsW with alt := some "777" } 0 =
      get_catalog envOk extW argsW 0 ∧
    get_catalog envOk extW argsW 0 =
      get_catalog_list envOk extW 0 (angle.from_dms 1) (angle.from_dms 1) 0
        (catalogElevation extW argsW.elevation) ∧
    catalogElevation extW argsW.elevation = 0 := by
  have h := catalog_alt_zero_and_ele_default envOk extW argsW 0
  exact ⟨h.1 (some "777"),
         h.2.1 0 "1" 1 "2" 1 (parse_request_date_none extW 0) rfl rfl rfl rfl,
         h.2.2.1 rfl⟩
